import Mathlib

/-!
Verification of the core decision logic of the visa-appointment scheduler.

The definitions below are a shallow embedding of the JavaScript sources:

* `dateToComparable`, `checkDateImprovement`, `setExistingAppointments`,
  `attemptBooking` embed the first `AppointmentBooker` class of
  `src/src/config/AppConfig.js` (the version whose `_dateToComparable`
  throws on strings without a dash and whose `attemptBooking` performs an
  early improvement check before time-slot selection).
* `findAvailableDates`, `findMatchingCasvDates`, `getBestMatchingCasvDate`
  embed `src/src/calendar/CalendarNavigator.js`.

Browser and DOM collaborators are modelled as an explicit environment
(`CycleEnv`) whose fields give the outcome of each external step; a step
that can throw is an `Except String` value.  JavaScript `Number` ("NaN")
is modelled by `Option Nat` (`none` = NaN), and JavaScript exceptions by
the `Except` error case.
-/

/-- Day cell discovered in a month grid, as stamped by
`CalendarNavigator._findDatesByTableCells` / `_findDatesByClickTest`:
the day-of-month number (`date`, from the cell text), the navigator's
current month/year context, and the formatted `fullDate` string
(`_formatFullDate(date)` under that context). -/
structure CalDay where
  date : Nat
  month : Nat
  year : Nat
  fullDate : String
deriving DecidableEq

/-- Membership test for the character used as the date separator; models
JavaScript `dateStr.includes('-')`. -/
def hasDash : List Char → Bool
  | [] => false
  | c :: rest => c = '-' || hasDash rest

/-- Accumulator-based splitting on the dash character; models
JavaScript `dateStr.split('-')`. -/
def splitDashAux : List Char → List Char → List (List Char)
  | [], acc => [acc.reverse]
  | c :: rest, acc =>
    if c = '-' then acc.reverse :: splitDashAux rest []
    else splitDashAux rest (c :: acc)

/-- Splitting a string's characters on the dash character. -/
def splitDash (cs : List Char) : List (List Char) := splitDashAux cs []

/-- Numeric value of a digit string. -/
def digitVal (cs : List Char) : Nat := cs.foldl (fun n c => n * 10 + (c.toNat - 48)) 0

/-- Model of JavaScript `Number(component)` on the substrings produced by
splitting a date string: the empty string maps to `0`, a string of
decimal digits maps to its value, anything else is NaN (`none`).
(Other JS `Number` inputs — signs, exponents, whitespace — cannot arise
from the date vocabulary handled here.) -/
def jsNum (cs : List Char) : Option Nat :=
  if cs.isEmpty then some 0
  else if cs.all (fun c => c.isDigit) then some (digitVal cs)
  else none

/-- Embedding of `AppointmentBooker._dateToComparable` (first class of
`AppConfig.js`, lines 569-576): throws unless the string contains a dash;
otherwise splits on dashes, destructures the first three components as
day, month, year (a missing component is `undefined`, i.e. NaN) and
returns `year*10000 + month*100 + day`, which is NaN (`none`) if any
component is NaN. -/
def dateToComparable (s : String) : Except String (Option Nat) :=
  if hasDash s.data then
    match (splitDash s.data)[2]?.bind jsNum, (splitDash s.data)[1]?.bind jsNum,
        (splitDash s.data)[0]?.bind jsNum with
    | some y, some m, some d => Except.ok (some (y * 10000 + m * 100 + d))
    | _, _, _ => Except.ok none
  else
    Except.error ("Invalid date format: " ++ s ++ ". Expected DD-MM-YYYY format.")

/-- Truthiness of a nullable string, as used by the JavaScript `||` and `!`
operators on the tracker fields (`null` and the empty string are falsy). -/
def jsTruthyS : Option String → Bool
  | none => false
  | some s => s ≠ ""

/-- JavaScript `a || b` on nullable strings. -/
def jsOrS (a b : Option String) : Option String := if jsTruthyS a then a else b

/-- JavaScript `x > y` where either side may be NaN (any comparison with
NaN is false). -/
def cmpGt (a b : Option Nat) : Bool :=
  match a, b with
  | some x, some y => decide (x > y)
  | _, _ => false

/-- JavaScript `x < y` where either side may be NaN. -/
def cmpLt (a b : Option Nat) : Bool :=
  match a, b with
  | some x, some y => decide (x < y)
  | _, _ => false

/-- Mutable fields of the first `AppointmentBooker` class relevant to the
improvement-tracking state machine. -/
structure BookerState where
  bestDateFound : Option String
  baselineDate : Option String
  maxDate : String
  selectedConsulateDate : Option Nat
  existingAppointments : Option String
deriving DecidableEq

/-- Comparison reference of `_checkDateImprovement`:
`this.baselineDate || this.bestDateFound || this.maxDate` (JavaScript
`||` on nullable strings; the chain always yields a string, so `getD`
never falls back in reachable states). -/
def comparisonDateOf (st : BookerState) : String :=
  (jsOrS (jsOrS st.baselineDate st.bestDateFound) (some st.maxDate)).getD st.maxDate

/-- Embedding of `AppointmentBooker._checkDateImprovement` (first class of
`AppConfig.js`, lines 514-561).  Returns the boolean result
(`isImprovement`) together with the updated state; date-conversion
failures propagate as errors (and, as in the source, happen before any
mutation).  In the final `if`, the source returns the value of the
condition `isImprovement` itself, hence `true` in the then-branch and
`false` in the else-branch. -/
def checkDateImprovement (st : BookerState) (newDate : String) : Except String (Bool × BookerState) :=
  match dateToComparable newDate with
  | Except.error e => Except.error e
  | Except.ok newComparable =>
    match dateToComparable st.maxDate with
    | Except.error e => Except.error e
    | Except.ok maxDateComparable =>
      if cmpGt newComparable maxDateComparable then
        Except.ok (false, st)
      else
        if !jsTruthyS st.baselineDate && !jsTruthyS st.bestDateFound then
          Except.ok (true, { st with bestDateFound := some newDate })
        else
          match dateToComparable (comparisonDateOf st) with
          | Except.error e => Except.error e
          | Except.ok baselineComparable =>
            if cmpLt newComparable baselineComparable then
              Except.ok (true, { st with bestDateFound := some newDate })
            else
              Except.ok (false, st)

/-- Embedding of `AppointmentBooker.setExistingAppointments` (lines
588-595): records the existing appointment and seeds both the permanent
baseline and the best-found date from its consulate date. -/
def setExistingAppointments (st : BookerState) (consulateDate : String) : BookerState :=
  { st with
    existingAppointments := some consulateDate
    baselineDate := some consulateDate
    bestDateFound := some consulateDate }

/-- State reached after one `_checkDateImprovement` call; a thrown
conversion error leaves the object unchanged, as in the source where the
throw happens before any field assignment. -/
def evalStep (st : BookerState) (c : String) : BookerState :=
  match checkDateImprovement st c with
  | Except.ok (_, st2) => st2
  | Except.error _ => st

/-- State reached after a sequence of `_checkDateImprovement` calls. -/
def evalSeq (st : BookerState) (cs : List String) : BookerState := cs.foldl evalStep st

/-- Loop of `CalendarNavigator.findAvailableDates` (lines 17-63).  The
month grids the browser would successively display are modelled by
`months : Nat → List CalDay` (the available days `_findDatesInCurrentMonth`
extracts from the i-th examined month) and `nav : Nat → Bool` (whether
`_navigateToNextMonth` succeeds after the i-th month).  `fuel` counts the
remaining loop iterations (`maxMonths - monthsChecked`), `mc` is the
source's `monthsChecked` counter.  The result pairs the value of
`availableDates` at loop exit with the number of months examined. -/
def findGo (months : Nat → List CalDay) (nav : Nat → Bool) (maxMonths : Nat) :
    Nat → Nat → List CalDay × Nat
  | 0, mc => ([], mc)
  | fuel + 1, mc =>
    if (months mc).isEmpty then
      if mc < maxMonths - 1 then
        if nav mc then findGo months nav maxMonths fuel (mc + 1)
        else ([], mc + 1)
      else ([], mc + 1)
    else (months mc, mc + 1)

/-- Embedding of `CalendarNavigator.findAvailableDates`: scan up to
`maxMonths` months, stopping at the first month with at least one
available day, when navigation to the next month fails, or when the
month budget is exhausted. -/
def findAvailableDates (months : Nat → List CalDay) (nav : Nat → Bool) (maxMonths : Nat) :
    List CalDay × Nat :=
  findGo months nav maxMonths maxMonths 0

/-- Embedding of `CalendarNavigator.findMatchingCasvDates` (lines
365-383): keep the CASV day cells whose day-of-month number is at most
`tolerance` days at or before the consulate day-of-month number.  The
filter uses only `parseInt(day.date)`; the month and year stamped on the
cell are not consulted. -/
def findMatchingCasvDates (tolerance : Nat) (consulateDate : Nat)
    (availableCasvDates : List CalDay) : List CalDay :=
  availableCasvDates.filter fun day =>
    decide (0 ≤ (consulateDate : Int) - (day.date : Int)) &&
    decide ((consulateDate : Int) - (day.date : Int) ≤ (tolerance : Int))

/-- Loop of `CalendarNavigator.getBestMatchingCasvDate`: scan the whole
list keeping the entry with the strictly smallest difference seen so far
(ties keep the earlier entry). -/
def getBestLoop (consulateDate : Int) : List CalDay → CalDay × Int → CalDay × Int
  | [], acc => acc
  | casvDay :: rest, acc =>
    if consulateDate - (casvDay.date : Int) < acc.2 then
      getBestLoop consulateDate rest (casvDay, consulateDate - (casvDay.date : Int))
    else
      getBestLoop consulateDate rest acc

/-- Embedding of `CalendarNavigator.getBestMatchingCasvDate` (lines
391-412): null on an empty list; otherwise start from the first entry and
scan the list for a strictly smaller `consulateDate - date` difference. -/
def getBestMatchingCasvDate (consulateDate : Nat) (matchingDates : List CalDay) : Option CalDay :=
  match matchingDates with
  | [] => none
  | first :: _ =>
    some (getBestLoop (consulateDate : Int) matchingDates
      (first, (consulateDate : Int) - (first.date : Int))).1

/-- Example list of CASV day cells from the specification's tolerance
matching example (all stamped with the same month as the primary date). -/
def exampleCasvDays : List CalDay :=
  [⟨18, 9, 2025, "18-09-2025"⟩, ⟨19, 9, 2025, "19-09-2025"⟩, ⟨22, 9, 2025, "22-09-2025"⟩]

/-- Specification-side notion of a calendar day number (Rata Die style:
days elapsed up to the given proleptic-Gregorian date), used to express
the claim's calendar-day difference between two dates. -/
def rataDie (y m d : Nat) : Nat :=
  365 * (y - 1) + (y - 1) / 4 - (y - 1) / 100 + (y - 1) / 400 +
    (List.range (m - 1)).foldl
      (fun acc i =>
        acc +
          (if i + 1 = 2 then (if (y % 4 = 0 && y % 100 ≠ 0) || y % 400 = 0 then 29 else 28)
           else if i + 1 = 4 || i + 1 = 6 || i + 1 = 9 || i + 1 = 11 then 30
           else 31)) 0 + d

/-- Time-slot dropdown option as read by `getElementsInfo` in
`_selectConsulateTime` / `_selectCasvTime`. -/
structure TimeOption where
  value : String
  text : String
  disabled : Bool
deriving DecidableEq

/-- Filter applied to the raw option list in the source:
`option.value && !option.disabled && option.text`. -/
def filterTimeOptions (opts : List TimeOption) : List TimeOption :=
  opts.filter fun o => decide (o.value ≠ "") && !o.disabled && decide (o.text ≠ "")

/-- Outcome of every external (browser/DOM) step touched by one
`attemptBooking` cycle.  A field of type `Except String _` models a step
that may throw; the month streams and navigation flags feed the
`findAvailableDates` loop for the consulate and CASV calendars. -/
structure CycleEnv where
  reselectConsulate : Except String Unit
  openConsulateCalendar : Except String Unit
  consulateMonths : Nat → List CalDay
  consulateNav : Nat → Bool
  selectConsulateDate : Nat → Bool
  consulateTimeOptions : Except String (List TimeOption)
  selectConsulateTimeValue : String → Except String Unit
  casvFacilitySelect : Except String Unit
  openCasvCalendar : Except String Unit
  casvMonths : Nat → List CalDay
  casvNav : Nat → Bool
  selectCasvDate : Nat → Bool
  casvTimeOptions : Except String (List TimeOption)
  selectCasvTimeValue : String → Except String Unit

/-- Result of `_selectMatchingCasvDate` on success. -/
structure CasvSel where
  date : Nat
  fullDate : String
  time : String
deriving DecidableEq

/-- Booking record returned by `attemptBooking`; `baseline` appears only
in the early (non-improvement) return of the source and
`existingAppointments` only in the full return, hence both are optional
here. -/
structure BookingResult where
  consulateDate : String
  consulateTime : Option String
  consulateLocation : String
  casvDate : Option String
  casvTime : Option String
  casvLocation : String
  isImprovement : Bool
  previousBest : Option String
  baseline : Option String
  existingAppointments : Option String
deriving DecidableEq

/-- Configuration values read by one cycle. -/
structure MonitorConfig where
  consulate : String
  maxMonthsToCheck : Nat
  maxCasvMonthsToCheck : Nat
  casvDateTolerance : Nat
deriving DecidableEq

/-- Embedding of `AppointmentBooker._getCasvLocationName`. -/
def casvLocationName (consulate : String) : String :=
  if consulate = "Brasília" then "Brasília ASC"
  else if consulate = "Porto Alegre" then "Brasília ASC"
  else if consulate = "Recife" then "Brasília ASC"
  else if consulate = "Rio de Janeiro" then "Rio de Janeiro ASC"
  else if consulate = "São Paulo" then "São Paulo ASC Unidade Vila Mariana"
  else "Unknown ASC"

/-- The `availableDates.reduce` step of `attemptBooking`: keep the entry
whose `fullDate` has the strictly smallest DateKey (ties keep the
earlier-encountered entry); a conversion failure throws. -/
def reduceEarliest (earliest : CalDay) : List CalDay → Except String CalDay
  | [] => Except.ok earliest
  | current :: rest =>
    match dateToComparable current.fullDate with
    | Except.error e => Except.error e
    | Except.ok currentComparable =>
      match dateToComparable earliest.fullDate with
      | Except.error e => Except.error e
      | Except.ok earliestComparable =>
        if cmpLt currentComparable earliestComparable then reduceEarliest current rest
        else reduceEarliest earliest rest

/-- Embedding of `_selectConsulateTime` (latest slot), including its
internal try/catch: any thrown step yields null. -/
def selectConsulateTimeStep (env : CycleEnv) : Option TimeOption :=
  match env.consulateTimeOptions with
  | Except.error _ => none
  | Except.ok raw =>
    match (filterTimeOptions raw).getLast? with
    | none => none
    | some latest =>
      match env.selectConsulateTimeValue latest.value with
      | Except.error _ => none
      | Except.ok _ => some latest

/-- Embedding of `_selectCasvTime` (earliest slot), including its
internal try/catch. -/
def selectCasvTimeStep (env : CycleEnv) : Option TimeOption :=
  match env.casvTimeOptions with
  | Except.error _ => none
  | Except.ok raw =>
    match (filterTimeOptions raw).head? with
    | none => none
    | some earliest =>
      match env.selectCasvTimeValue earliest.value with
      | Except.error _ => none
      | Except.ok _ => some earliest

/-- Embedding of `_selectMatchingCasvDate` including its try/catch:
search the CASV calendar, filter to the tolerance window, take the best
match, select it and pick its earliest time slot; every failure yields
null. -/
def selectMatchingCasvDate (env : CycleEnv) (cfg : MonitorConfig)
    (selectedConsulateDate : Nat) : Option CasvSel :=
  match env.openCasvCalendar with
  | Except.error _ => none
  | Except.ok _ =>
    let availableCasvDates :=
      (findAvailableDates env.casvMonths env.casvNav cfg.maxCasvMonthsToCheck).1
    if availableCasvDates.isEmpty then none
    else
      let matchingDates :=
        findMatchingCasvDates cfg.casvDateTolerance selectedConsulateDate availableCasvDates
      if matchingDates.isEmpty then none
      else
        match getBestMatchingCasvDate selectedConsulateDate matchingDates with
        | none => none
        | some bestMatch =>
          if env.selectCasvDate bestMatch.date then
            match selectCasvTimeStep env with
            | none => none
            | some t => some ⟨bestMatch.date, bestMatch.fullDate, t.text⟩
          else none

/-- Embedding of `_selectCasvAppointment`: select the CASV facility, then
find the matching CASV date; any thrown step yields null. -/
def selectCasvAppointment (env : CycleEnv) (cfg : MonitorConfig)
    (selectedConsulateDate : Nat) : Option CasvSel :=
  match env.casvFacilitySelect with
  | Except.error _ => none
  | Except.ok _ => selectMatchingCasvDate env cfg selectedConsulateDate

/-- Steps of `attemptBooking` up to and including consulate date
selection: re-select the consulate, open the calendar, search available
dates, reduce to the earliest, and click it.  `Except.ok none` models the
source's early `return null` (no dates, or the click failed);
`Except.error` models a thrown step. -/
def primaryPhase (env : CycleEnv) (cfg : MonitorConfig) : Except String (Option CalDay) :=
  match env.reselectConsulate with
  | Except.error e => Except.error e
  | Except.ok _ =>
    match env.openConsulateCalendar with
    | Except.error e => Except.error e
    | Except.ok _ =>
      match (findAvailableDates env.consulateMonths env.consulateNav cfg.maxMonthsToCheck).1 with
      | [] => Except.ok none
      | first :: rest =>
        match reduceEarliest first rest with
        | Except.error e => Except.error e
        | Except.ok earliestAvailable =>
          if env.selectConsulateDate earliestAvailable.date then Except.ok (some earliestAvailable)
          else Except.ok none

/-- Body of `attemptBooking` before the surrounding try/catch.  The
result tuple carries, besides the booking outcome and the object state,
two trace values: whether `_selectCasvAppointment` was invoked, and how
many times `_checkDateImprovement` was invoked during the cycle. -/
def attemptBookingBody (env : CycleEnv) (cfg : MonitorConfig) (st : BookerState) :
    Except String (Option BookingResult) × BookerState × Bool × Nat :=
  match primaryPhase env cfg with
  | Except.error e => (Except.error e, st, false, 0)
  | Except.ok none => (Except.ok none, st, false, 0)
  | Except.ok (some earliestAvailable) =>
    match checkDateImprovement { st with selectedConsulateDate := some earliestAvailable.date }
        earliestAvailable.fullDate with
    | Except.error e =>
      (Except.error e, { st with selectedConsulateDate := some earliestAvailable.date }, false, 1)
    | Except.ok (isImprovementEarly, st2) =>
      if isImprovementEarly then
        match selectConsulateTimeStep env with
        | none => (Except.ok none, st2, false, 1)
        | some consulateTimeResult =>
          match selectCasvAppointment env cfg earliestAvailable.date with
          | none => (Except.ok none, st2, true, 1)
          | some casvResult =>
            match checkDateImprovement st2 earliestAvailable.fullDate with
            | Except.error e => (Except.error e, st2, true, 2)
            | Except.ok (isImprovement, st3) =>
              (Except.ok (some
                { consulateDate := earliestAvailable.fullDate
                  consulateTime := some consulateTimeResult.text
                  consulateLocation := cfg.consulate
                  casvDate := some casvResult.fullDate
                  casvTime := some casvResult.time
                  casvLocation := casvLocationName cfg.consulate
                  isImprovement := isImprovement
                  previousBest := st3.bestDateFound
                  baseline := none
                  existingAppointments := st3.existingAppointments }), st3, true, 2)
      else
        (Except.ok (some
          { consulateDate := earliestAvailable.fullDate
            consulateTime := none
            consulateLocation := cfg.consulate
            casvDate := none
            casvTime := none
            casvLocation := casvLocationName cfg.consulate
            isImprovement := false
            previousBest := st2.bestDateFound
            baseline := if jsTruthyS st2.baselineDate then st2.baselineDate else none
            existingAppointments := none }), st2, false, 1)

/-- Embedding of `AppointmentBooker.attemptBooking` (lines 204-290): the
body wrapped in the source's try/catch, which converts any thrown error
into a null result (the object state reached so far is kept, as for a
JavaScript exception). -/
def attemptBooking (env : CycleEnv) (cfg : MonitorConfig) (st : BookerState) :
    Option BookingResult × BookerState × Bool × Nat :=
  match attemptBookingBody env cfg st with
  | (Except.error _, st2, inv, n) => (none, st2, inv, n)
  | (Except.ok r, st2, inv, n) => (r, st2, inv, n)

/-- Environment in which the very first browser step of the cycle throws. -/
def errEnv : CycleEnv :=
  { reselectConsulate := Except.error "boom"
    openConsulateCalendar := Except.ok ()
    consulateMonths := fun _ => []
    consulateNav := fun _ => true
    selectConsulateDate := fun _ => false
    consulateTimeOptions := Except.ok []
    selectConsulateTimeValue := fun _ => Except.ok ()
    casvFacilitySelect := Except.ok ()
    openCasvCalendar := Except.ok ()
    casvMonths := fun _ => []
    casvNav := fun _ => true
    selectCasvDate := fun _ => false
    casvTimeOptions := Except.ok []
    selectCasvTimeValue := fun _ => Except.ok () }

/-- Configuration used by the concrete cycle scenarios. -/
def baseCfg : MonitorConfig :=
  { consulate := "Brasília", maxMonthsToCheck := 2, maxCasvMonthsToCheck := 2,
    casvDateTolerance := 2 }

/-- Fresh tracker state: no baseline, no best-found date. -/
def emptySt : BookerState :=
  { bestDateFound := none, baselineDate := none, maxDate := "31-12-2025",
    selectedConsulateDate := none, existingAppointments := none }

/-- Environment in which the consulate calendar offers 14-08-2025, the
date click succeeds, but no consulate time slot exists, so the cycle
fails after primary-date selection. -/
def c2Env : CycleEnv :=
  { reselectConsulate := Except.ok ()
    openConsulateCalendar := Except.ok ()
    consulateMonths := fun i => if i = 0 then [⟨14, 8, 2025, "14-08-2025"⟩] else []
    consulateNav := fun _ => true
    selectConsulateDate := fun _ => true
    consulateTimeOptions := Except.ok []
    selectConsulateTimeValue := fun _ => Except.ok ()
    casvFacilitySelect := Except.ok ()
    openCasvCalendar := Except.ok ()
    casvMonths := fun _ => []
    casvNav := fun _ => true
    selectCasvDate := fun _ => true
    casvTimeOptions := Except.ok []
    selectCasvTimeValue := fun _ => Except.ok () }

/-- Tracker state with an earlier best-found date of 20-09-2025. -/
def c2St : BookerState :=
  { bestDateFound := some "20-09-2025", baselineDate := none, maxDate := "31-12-2025",
    selectedConsulateDate := none, existingAppointments := none }

/-- Environment in which the consulate calendar offers only 30-08-2025. -/
def c4Env : CycleEnv :=
  { c2Env with consulateMonths := fun i => if i = 0 then [⟨30, 8, 2025, "30-08-2025"⟩] else [] }

/-- Tracker state seeded from an existing appointment on 29-08-2025. -/
def c4St : BookerState :=
  { bestDateFound := some "29-08-2025", baselineDate := some "29-08-2025",
    maxDate := "31-12-2025", selectedConsulateDate := none,
    existingAppointments := some "29-08-2025" }

/-- Environment of a fully successful paired-booking cycle: the consulate
calendar offers 14-08-2025 with a time slot, and the CASV calendar offers
the same day with a time slot. -/
def c1Env : CycleEnv :=
  { c2Env with
    consulateTimeOptions := Except.ok [⟨"t1", "09:00", false⟩]
    casvMonths := fun i => if i = 0 then [⟨14, 8, 2025, "14-08-2025"⟩] else []
    casvTimeOptions := Except.ok [⟨"c1", "08:00", false⟩] }

lemma cmpLt_some_right {a : Option Nat} {y x : Nat} (h : cmpLt a (some y) = true) (hx : a = some x) :
    x < y := by
  subst hx; simpa [cmpLt] using h

lemma cmpLt_none_left {b : Option Nat} : cmpLt none b = false := by cases b <;> rfl

lemma cmpLt_true_left {a b : Option Nat} (h : cmpLt a b = true) : ∃ x, a = some x := by
  cases a with
  | none => rw [cmpLt_none_left] at h; cases h
  | some x => exact ⟨x, rfl⟩

lemma dateToComparable_ok_ne_empty {b : String} {v : Option Nat}
    (h : dateToComparable b = Except.ok v) : b ≠ "" := by
  intro hb
  subst hb
  have hd : hasDash ("".data) = false := rfl
  unfold dateToComparable at h
  rw [hd] at h
  simp at h

lemma checkDateImprovement_frame {st : BookerState} {c : String} {r : Bool} {st2 : BookerState}
    (h : checkDateImprovement st c = Except.ok (r, st2)) :
    st2.baselineDate = st.baselineDate ∧ st2.maxDate = st.maxDate ∧
    st2.existingAppointments = st.existingAppointments ∧
    st2.selectedConsulateDate = st.selectedConsulateDate ∧
    (st2.bestDateFound = st.bestDateFound ∨ st2.bestDateFound = some c) := by
  unfold checkDateImprovement at h
  split at h
  · simp at h
  · split at h
    · simp at h
    · split at h
      · injection h with h1
        injection h1 with h2 h3
        subst h3
        exact ⟨rfl, rfl, rfl, rfl, Or.inl rfl⟩
      · split at h
        · injection h with h1
          injection h1 with h2 h3
          subst h3
          exact ⟨rfl, rfl, rfl, rfl, Or.inr rfl⟩
        · split at h
          · simp at h
          · split at h
            · injection h with h1
              injection h1 with h2 h3
              subst h3
              exact ⟨rfl, rfl, rfl, rfl, Or.inr rfl⟩
            · injection h with h1
              injection h1 with h2 h3
              subst h3
              exact ⟨rfl, rfl, rfl, rfl, Or.inl rfl⟩

lemma checkDateImprovement_false_frame {st : BookerState} {c : String} {st2 : BookerState}
    (h : checkDateImprovement st c = Except.ok (false, st2)) : st2 = st := by
  unfold checkDateImprovement at h
  split at h
  · simp at h
  · split at h
    · simp at h
    · split at h
      · injection h with h1
        injection h1 with h2 h3
        exact h3.symm
      · split at h
        · injection h with h1
          injection h1 with h2 h3
          cases h2
        · split at h
          · simp at h
          · split at h
            · injection h with h1
              injection h1 with h2 h3
              cases h2
            · injection h with h1
              injection h1 with h2 h3
              exact h3.symm

lemma evalStep_mono (st : BookerState) (c : String) {b : String} {kb : Nat}
    (hbase : st.baselineDate = none) (hb : st.bestDateFound = some b)
    (hk : dateToComparable b = Except.ok (some kb)) :
    (evalStep st c).baselineDate = none ∧
    ∃ b2 kb2, (evalStep st c).bestDateFound = some b2 ∧
      dateToComparable b2 = Except.ok (some kb2) ∧ kb2 ≤ kb := by
  have hbne : b ≠ "" := dateToComparable_ok_ne_empty hk
  unfold evalStep
  cases hcall : checkDateImprovement st c with
  | error e => exact ⟨hbase, b, kb, hb, hk, le_refl kb⟩
  | ok p =>
    obtain ⟨r, st2⟩ := p
    unfold checkDateImprovement at hcall
    split at hcall
    · simp at hcall
    · next newComparable heqc =>
      split at hcall
      · simp at hcall
      · split at hcall
        · injection hcall with h1
          injection h1 with h2 h3
          subst h3
          exact ⟨hbase, b, kb, hb, hk, le_refl kb⟩
        · next hnotmax =>
          split at hcall
          · next hcond =>
            rw [hbase, hb] at hcond
            simp [jsTruthyS, hbne] at hcond
          · split at hcall
            · simp at hcall
            · next baselineComparable heqb =>
              have hcompd : comparisonDateOf st = b := by
                unfold comparisonDateOf jsOrS
                rw [hbase, hb]
                simp [jsTruthyS, hbne]
              rw [hcompd, hk] at heqb
              injection heqb with heqb1
              subst heqb1
              split at hcall
              · next hlt =>
                obtain ⟨nk, hnk⟩ := cmpLt_true_left hlt
                have hltn : nk < kb := cmpLt_some_right hlt hnk
                injection hcall with h1
                injection h1 with h2 h3
                subst h3
                refine ⟨hbase, c, nk, rfl, ?_, le_of_lt hltn⟩
                rw [hnk] at heqc
                exact heqc
              · injection hcall with h1
                injection h1 with h2 h3
                subst h3
                exact ⟨hbase, b, kb, hb, hk, le_refl kb⟩

/-- C5: for every sequence of `_checkDateImprovement` calls performed with
no baseline set, `bestDateFound` is monotonically non-increasing in
DateKey order: whenever it starts as a date with key `kb`, every later
value is a date whose key is at most `kb` (and it never becomes null). -/
theorem evalSeq_best_monotone (cs : List String) :
    ∀ st : BookerState, ∀ b : String, ∀ kb : Nat,
      st.baselineDate = none → st.bestDateFound = some b →
      dateToComparable b = Except.ok (some kb) →
      ∃ b2 kb2, (evalSeq st cs).bestDateFound = some b2 ∧
        dateToComparable b2 = Except.ok (some kb2) ∧ kb2 ≤ kb := by
  induction cs with
  | nil => exact fun st b kb _ hb hk => ⟨b, kb, hb, hk, le_refl kb⟩
  | cons c cs ih =>
    intro st b kb hbase hb hk
    obtain ⟨hbase2, b2, kb2, hb2, hk2, hle2⟩ := evalStep_mono st c hbase hb hk
    obtain ⟨b3, kb3, hb3, hk3, hle3⟩ := ih (evalStep st c) b2 kb2 hbase2 hb2 hk2
    exact ⟨b3, kb3, hb3, hk3, le_trans hle3 hle2⟩

theorem evalSeq_best_monotone_witness :
    ∃ b2 kb2,
      (evalSeq
        { bestDateFound := some "20-09-2025", baselineDate := none, maxDate := "31-12-2025",
          selectedConsulateDate := none, existingAppointments := none }
        ["25-12-2025", "14-08-2025"]).bestDateFound = some b2 ∧
      dateToComparable b2 = Except.ok (some kb2) ∧ kb2 ≤ 20250920 :=
  evalSeq_best_monotone ["25-12-2025", "14-08-2025"] _ "20-09-2025" 20250920 rfl rfl rfl

/-- C6: once the baseline has been seeded from a pre-existing appointment
via `setExistingAppointments`, no sequence of `_checkDateImprovement`
calls changes `baselineDate`: evaluation only compares against the
baseline, never overwrites it. -/
theorem baseline_immutable_after_seed (st : BookerState) (d : String) (cs : List String) :
    (evalSeq (setExistingAppointments st d) cs).baselineDate = some d := by
  have hstep : ∀ st2 : BookerState, ∀ c : String, (evalStep st2 c).baselineDate = st2.baselineDate := by
    intro st2 c
    unfold evalStep
    cases hcall : checkDateImprovement st2 c with
    | error e => rfl
    | ok p =>
      obtain ⟨r, st3⟩ := p
      exact (checkDateImprovement_frame hcall).1
  have hseq : ∀ cs2 : List String, ∀ st2 : BookerState,
      (evalSeq st2 cs2).baselineDate = st2.baselineDate := by
    intro cs2
    induction cs2 with
    | nil => intro st2; rfl
    | cons c cs2 ih =>
      intro st2
      calc (evalSeq st2 (c :: cs2)).baselineDate
          = (evalSeq (evalStep st2 c) cs2).baselineDate := rfl
        _ = (evalStep st2 c).baselineDate := ih (evalStep st2 c)
        _ = st2.baselineDate := hstep st2 c
  rw [hseq]
  rfl

/-- C7: a candidate whose DateKey exceeds the key of the configured
`maxDate` is rejected outright by `_checkDateImprovement` — the result is
`false` and the whole tracker state (including `bestDateFound` and
`baselineDate`) is returned unchanged, even when no baseline or
best-found date exists yet. -/
theorem checkDateImprovement_max_date_reject (st : BookerState) (c : String) (k mk : Nat)
    (hc : dateToComparable c = Except.ok (some k))
    (hm : dateToComparable st.maxDate = Except.ok (some mk))
    (hgt : mk < k) :
    checkDateImprovement st c = Except.ok (false, st) := by
  unfold checkDateImprovement
  rw [hc, hm]
  simp [cmpGt, hgt]

theorem checkDateImprovement_max_date_reject_witness :
    checkDateImprovement
      { bestDateFound := none, baselineDate := none, maxDate := "31-12-2025",
        selectedConsulateDate := none, existingAppointments := none } "01-01-2026" =
    Except.ok (false,
      { bestDateFound := none, baselineDate := none, maxDate := "31-12-2025",
        selectedConsulateDate := none, existingAppointments := none }) :=
  checkDateImprovement_max_date_reject _ "01-01-2026" 20260101 20251231 rfl rfl (by decide)

lemma hasDash_of_splitDashAux : ∀ cs acc : List Char, 2 ≤ (splitDashAux cs acc).length →
    hasDash cs = true := by
  intro cs
  induction cs with
  | nil =>
    intro acc h
    simp [splitDashAux] at h
  | cons c rest ih =>
    intro acc h
    by_cases hc : c = '-'
    · simp [hasDash, hc]
    · rw [splitDashAux, if_neg hc] at h
      simp [hasDash, hc]
      exact ih _ h

/-- C9 counterexample: the string `"12-13"` does not contain exactly two
dash separators (it contains one), yet `_dateToComparable` does not fail
on it — it returns a NaN key (`Except.ok none`) because the source only
checks `dateStr.includes('-')` before splitting.  This refutes the claim
that the function fails exactly when the input is not of the
two-separator numeric shape. -/
theorem dateToComparable_single_dash_ok :
    dateToComparable "12-13" = Except.ok none ∧ ("12-13").data.count '-' = 1 :=
  ⟨rfl, by decide⟩

/-- C9 (amended): `_dateToComparable` fails with the invalid-format error
if and only if the input contains no dash at all; and on every
well-formed string — one splitting on dashes into exactly three
components that JavaScript `Number` accepts as day, month, year — it
returns the DateKey `year*10000 + month*100 + day`.  (Strings containing
a dash but malformed otherwise yield a NaN key without failing.) -/
theorem dateToComparable_spec (s : String) :
    ((∃ e, dateToComparable s = Except.error e) ↔ hasDash s.data = false) ∧
    (∀ ds ms ys : List Char, ∀ d m y : Nat, splitDash s.data = [ds, ms, ys] →
      jsNum ds = some d → jsNum ms = some m → jsNum ys = some y →
      dateToComparable s = Except.ok (some (y * 10000 + m * 100 + d))) := by
  constructor
  · constructor
    · rintro ⟨e, he⟩
      unfold dateToComparable at he
      by_cases hd : hasDash s.data = true
      · rw [if_pos hd] at he
        split at he <;> simp at he
      · simpa using hd
    · intro hd
      unfold dateToComparable
      rw [if_neg (by simp [hd])]
      exact ⟨_, rfl⟩
  · intro ds ms ys d m y hsplit hds hms hys
    have hd : hasDash s.data = true := by
      apply hasDash_of_splitDashAux s.data []
      have : splitDashAux s.data [] = [ds, ms, ys] := hsplit
      rw [this]
      simp
    unfold dateToComparable
    rw [if_pos hd, hsplit]
    simp [hds, hms, hys]

theorem dateToComparable_spec_witness :
    dateToComparable "05-03-2026" = Except.ok (some (2026 * 10000 + 3 * 100 + 5)) :=
  (dateToComparable_spec "05-03-2026").2 ['0', '5'] ['0', '3'] ['2', '0', '2', '6'] 5 3 2026
    (by decide) (by decide) (by decide) (by decide)

lemma findGo_count_le (months : Nat → List CalDay) (nav : Nat → Bool) (maxMonths : Nat) :
    ∀ fuel mc, (findGo months nav maxMonths fuel mc).2 ≤ mc + fuel := by
  intro fuel
  induction fuel with
  | zero => intro mc; simp [findGo]
  | succ fuel ih =>
    intro mc
    rw [findGo]
    split
    · split
      · split
        · exact le_trans (ih (mc + 1)) (by omega)
        · simp
      · simp
    · simp

lemma findGo_first_hit (months : Nat → List CalDay) (nav : Nat → Bool) (m : Nat) :
    ∀ fuel mc i, mc + fuel = m → mc ≤ i → i < m →
      (∀ j, mc ≤ j → j < i → months j = [] ∧ nav j = true) → months i ≠ [] →
      findGo months nav m fuel mc = (months i, i + 1) := by
  intro fuel
  induction fuel with
  | zero =>
    intro mc i hinv hle hlt hpre hne
    omega
  | succ fuel ih =>
    intro mc i hinv hle hlt hpre hne
    rw [findGo]
    rcases Nat.eq_or_lt_of_le hle with heq | hltmc
    · subst heq
      rw [if_neg (by simpa [List.isEmpty_iff] using hne)]
    · have hmc : months mc = [] := (hpre mc (le_refl mc) hltmc).1
      have hnav : nav mc = true := (hpre mc (le_refl mc) hltmc).2
      rw [if_pos (by simp [hmc])]
      rw [if_pos (by omega), if_pos hnav]
      exact ih (mc + 1) i (by omega) (by omega) hlt
        (fun j hj1 hj2 => hpre j (by omega) hj2) hne

lemma findGo_all_empty (months : Nat → List CalDay) (nav : Nat → Bool) (m : Nat) :
    ∀ fuel mc, (∀ j, mc ≤ j → j < mc + fuel → months j = []) →
      (findGo months nav m fuel mc).1 = [] := by
  intro fuel
  induction fuel with
  | zero => intro mc h; simp [findGo]
  | succ fuel ih =>
    intro mc h
    have hmc : months mc = [] := h mc (le_refl mc) (by omega)
    rw [findGo, if_pos (by simp [hmc])]
    split
    · split
      · exact ih (mc + 1) (fun j hj1 hj2 => h j (by omega) (by omega))
      · rfl
    · rfl

lemma findGo_nav_fail (months : Nat → List CalDay) (nav : Nat → Bool) (m : Nat) :
    ∀ fuel mc i, mc + fuel = m → mc ≤ i → i < m - 1 →
      (∀ j, mc ≤ j → j ≤ i → months j = []) → (∀ j, mc ≤ j → j < i → nav j = true) →
      nav i = false →
      findGo months nav m fuel mc = ([], i + 1) := by
  intro fuel
  induction fuel with
  | zero =>
    intro mc i hinv hle hlt hemp hnav hfail
    omega
  | succ fuel ih =>
    intro mc i hinv hle hlt hemp hnav hfail
    have hmc : months mc = [] := hemp mc (le_refl mc) hle
    rw [findGo, if_pos (by simp [hmc]), if_pos (by omega)]
    rcases Nat.eq_or_lt_of_le hle with heq | hltmc
    · subst heq
      rw [if_neg (by simp [hfail])]
    · rw [if_pos (hnav mc (le_refl mc) hltmc)]
      exact ih (mc + 1) i (by omega) (by omega) hlt
        (fun j hj1 hj2 => hemp j (by omega) hj2)
        (fun j hj1 hj2 => hnav j (by omega) hj2) hfail

/-- C8: `findAvailableDates` examines at most `maxMonths` months; it
returns the available days of the first reachable month that yields at
least one available day; it returns the empty list when every month in
the budget is empty; and it stops early with the empty list as soon as
month-advance navigation fails. -/
theorem findAvailableDates_bounded_first_hit (months : Nat → List CalDay) (nav : Nat → Bool)
    (m : Nat) :
    (findAvailableDates months nav m).2 ≤ m ∧
    (∀ i, i < m → (∀ j, j < i → months j = [] ∧ nav j = true) → months i ≠ [] →
      findAvailableDates months nav m = (months i, i + 1)) ∧
    ((∀ i, i < m → months i = []) → (findAvailableDates months nav m).1 = []) ∧
    (∀ i, i < m - 1 → (∀ j, j ≤ i → months j = []) → (∀ j, j < i → nav j = true) →
      nav i = false → findAvailableDates months nav m = ([], i + 1)) := by
  refine ⟨?_, ?_, ?_, ?_⟩
  · simpa using findGo_count_le months nav m m 0
  · intro i hi hpre hne
    exact findGo_first_hit months nav m m 0 i (by omega) (Nat.zero_le i) hi
      (fun j hj1 hj2 => hpre j hj2) hne
  · intro hall
    exact findGo_all_empty months nav m m 0 (fun j hj1 hj2 => hall j (by omega))
  · intro i hi hemp hnav hfail
    exact findGo_nav_fail months nav m m 0 i (by omega) (Nat.zero_le i) hi
      (fun j hj1 hj2 => hemp j hj2) (fun j hj1 hj2 => hnav j hj2) hfail

theorem findAvailableDates_bounded_first_hit_witness :
    findAvailableDates (fun i => if i = 1 then [⟨14, 8, 2025, "14-08-2025"⟩] else []) (fun _ => true)
      3 = ([⟨14, 8, 2025, "14-08-2025"⟩], 2) := by
  have h := (findAvailableDates_bounded_first_hit
      (fun i => if i = 1 then [⟨14, 8, 2025, "14-08-2025"⟩] else []) (fun _ => true) 3).2.1 1
      (by omega)
      (fun j hj => by
        have : j = 0 := by omega
        subst this
        exact ⟨rfl, rfl⟩)
      (by simp)
  simpa using h

lemma getBestLoop_spec (cd : Int) :
    ∀ (l : List CalDay) (b0 b : CalDay) (δ : Int),
      getBestLoop cd l (b0, cd - (b0.date : Int)) = (b, δ) →
      δ = cd - (b.date : Int) ∧
      ((b = b0 ∧ ∀ d ∈ l, cd - (b0.date : Int) ≤ cd - (d.date : Int)) ∨
       (∃ l1 l2, l = l1 ++ b :: l2 ∧ δ < cd - (b0.date : Int) ∧
         (∀ d ∈ l1, δ < cd - (d.date : Int)) ∧ (∀ d ∈ l2, δ ≤ cd - (d.date : Int)))) := by
  intro l
  induction l with
  | nil =>
    intro b0 b δ h
    rw [getBestLoop] at h
    injection h with h1 h2
    subst h1
    subst h2
    exact ⟨rfl, Or.inl ⟨rfl, by simp⟩⟩
  | cons d rest ih =>
    intro b0 b δ h
    rw [getBestLoop] at h
    by_cases hlt : cd - (d.date : Int) < cd - (b0.date : Int)
    · rw [if_pos hlt] at h
      obtain ⟨hδ, hcase⟩ := ih d b δ h
      refine ⟨hδ, Or.inr ?_⟩
      rcases hcase with ⟨hbd, hall⟩ | ⟨l1, l2, hsplit, hδlt, hl1, hl2⟩
      · subst hbd
        exact ⟨[], rest, rfl, by rw [hδ]; exact hlt, by simp, by
          intro x hx
          rw [hδ]
          exact hall x hx⟩
      · refine ⟨d :: l1, l2, by rw [hsplit, List.cons_append], lt_trans hδlt hlt, ?_, hl2⟩
        intro x hx
        rcases List.mem_cons.mp hx with hx | hx
        · subst hx
          exact hδlt
        · exact hl1 x hx
    · rw [if_neg hlt] at h
      obtain ⟨hδ, hcase⟩ := ih b0 b δ h
      refine ⟨hδ, ?_⟩
      rcases hcase with ⟨hbd, hall⟩ | ⟨l1, l2, hsplit, hδlt, hl1, hl2⟩
      · refine Or.inl ⟨hbd, ?_⟩
        intro x hx
        rcases List.mem_cons.mp hx with hx | hx
        · subst hx
          exact le_of_not_lt hlt
        · exact hall x hx
      · refine Or.inr ⟨d :: l1, l2, by rw [hsplit, List.cons_append], hδlt, ?_, hl2⟩
        intro x hx
        rcases List.mem_cons.mp hx with hx | hx
        · subst hx
          exact lt_of_lt_of_le hδlt (le_of_not_lt hlt)
        · exact hl1 x hx

/-- C3 (amended): the matcher operates on raw day-of-month numbers.
`findMatchingCasvDates` keeps exactly the candidates whose day number is
between `consulateDate - tolerance` and `consulateDate` (month and year
ignored); `getBestMatchingCasvDate` returns null exactly on an empty list
and otherwise an element with the smallest day-number difference, every
earlier-encountered element having a strictly larger difference (ties
broken by first-encountered order). -/
theorem casvMatch_spec (tolerance : Nat) (consulateDate : Nat) (ds : List CalDay) :
    (∀ d : CalDay, d ∈ findMatchingCasvDates tolerance consulateDate ds ↔
      d ∈ ds ∧ 0 ≤ (consulateDate : Int) - (d.date : Int) ∧
        (consulateDate : Int) - (d.date : Int) ≤ (tolerance : Int)) ∧
    getBestMatchingCasvDate consulateDate [] = none ∧
    (∀ (b : CalDay) (ms : List CalDay), getBestMatchingCasvDate consulateDate ms = some b →
      b ∈ ms ∧
      (∀ d ∈ ms,
        (consulateDate : Int) - (b.date : Int) ≤ (consulateDate : Int) - (d.date : Int)) ∧
      ∃ l1 l2, ms = l1 ++ b :: l2 ∧
        ∀ d ∈ l1,
          (consulateDate : Int) - (b.date : Int) < (consulateDate : Int) - (d.date : Int)) := by
  refine ⟨?_, rfl, ?_⟩
  · intro d
    simp [findMatchingCasvDates, List.mem_filter, and_assoc]
  · intro b ms h
    match ms with
    | [] => simp [getBestMatchingCasvDate] at h
    | first :: rest =>
      rcases hloop : getBestLoop (consulateDate : Int) (first :: rest)
          (first, (consulateDate : Int) - (first.date : Int)) with ⟨b2, δ⟩
      rw [getBestMatchingCasvDate, hloop] at h
      injection h with h1
      simp only [Prod.fst] at h1
      subst b2
      obtain ⟨hδ, hcase⟩ := getBestLoop_spec (consulateDate : Int) (first :: rest) first b δ hloop
      rcases hcase with ⟨hbf, hall⟩ | ⟨l1, l2, hsplit, hδlt, hl1, hl2⟩
      · subst hbf
        exact ⟨List.mem_cons_self b rest, hall, [], rest, rfl, by simp⟩
      · refine ⟨by rw [hsplit]; exact List.mem_append_right l1 (List.mem_cons_self b l2), ?_,
          l1, l2, hsplit, ?_⟩
        · intro d hd
          rw [hsplit] at hd
          rcases List.mem_append.mp hd with hd | hd
          · exact le_of_lt (by rw [← hδ]; exact hl1 d hd)
          · rcases List.mem_cons.mp hd with hd | hd
            · subst hd
              exact le_refl _
            · rw [← hδ]
              exact hl2 d hd
        · intro d hd
          rw [← hδ]
          exact hl1 d hd

theorem casvMatch_spec_witness :
    (⟨19, 9, 2025, "19-09-2025"⟩ : CalDay) ∈ findMatchingCasvDates 2 20 exampleCasvDays ∧
    (∀ d ∈ findMatchingCasvDates 2 20 exampleCasvDays,
      (20 : Int) - (((⟨19, 9, 2025, "19-09-2025"⟩ : CalDay)).date : Int) ≤
        (20 : Int) - (d.date : Int)) ∧
    ∃ l1 l2, findMatchingCasvDates 2 20 exampleCasvDays =
        l1 ++ (⟨19, 9, 2025, "19-09-2025"⟩ : CalDay) :: l2 ∧
      ∀ d ∈ l1, (20 : Int) - (((⟨19, 9, 2025, "19-09-2025"⟩ : CalDay)).date : Int) <
        (20 : Int) - (d.date : Int) :=
  (casvMatch_spec 2 20 exampleCasvDays).2.2 ⟨19, 9, 2025, "19-09-2025"⟩
    (findMatchingCasvDates 2 20 exampleCasvDays) (by decide)

/-- C3 counterexample: with the primary (consulate) appointment on
20-09-2025 — so the matcher receives day number 20 — and a single CASV
candidate cell stamped 19-07-2025, the calendar-day difference is 63 days
(far outside the tolerance of 2), so the claim requires the candidate to
be excluded and the match to be null; the code keeps it and returns it as
the best match, because only day-of-month numbers are compared. -/
theorem casvMatcher_ignores_month_year :
    findMatchingCasvDates 2 20 [⟨19, 7, 2025, "19-07-2025"⟩] = [⟨19, 7, 2025, "19-07-2025"⟩] ∧
    getBestMatchingCasvDate 20 [⟨19, 7, 2025, "19-07-2025"⟩] = some ⟨19, 7, 2025, "19-07-2025"⟩ ∧
    rataDie 2025 9 20 - rataDie 2025 7 19 = 63 ∧ ¬(63 ≤ 2) :=
  ⟨by decide, by decide, by decide, by decide⟩

/-- C10: the try/catch around the body of `attemptBooking` converts every
thrown error — from the browser, calendar, or date-parsing steps of the
cycle — into a null result, so `attemptBooking` never propagates an
exception to its caller. -/
theorem attemptBooking_catches_all (env : CycleEnv) (cfg : MonitorConfig) (st : BookerState)
    (e : String) (st2 : BookerState) (inv : Bool) (n : Nat)
    (h : attemptBookingBody env cfg st = (Except.error e, st2, inv, n)) :
    (attemptBooking env cfg st).1 = none := by
  unfold attemptBooking
  rw [h]

theorem attemptBooking_catches_all_witness :
    (attemptBooking errEnv baseCfg emptySt).1 = none :=
  attemptBooking_catches_all errEnv baseCfg emptySt "boom" emptySt false 0 rfl

/-- C2 (amended): `attemptBooking` never modifies `baselineDate` — in
particular any cycle aborted after primary-date selection leaves the
baseline at its start-of-cycle value.  (The start-of-cycle value of
`bestDateFound`, by contrast, is not always restored: see the
counterexample, where it was already updated by the pre-selection
improvement check of the selected date.) -/
theorem attemptBooking_preserves_baseline (env : CycleEnv) (cfg : MonitorConfig)
    (st : BookerState) :
    ((attemptBooking env cfg st).2.1).baselineDate = st.baselineDate := by
  have hb : ((attemptBookingBody env cfg st).2.1).baselineDate = st.baselineDate := by
    unfold attemptBookingBody
    split
    · rfl
    · rfl
    · split
      · rfl
      · next isImprovementEarly st2 heq2 =>
        have h2 : st2.baselineDate = st.baselineDate := (checkDateImprovement_frame heq2).1
        split
        · split
          · exact h2
          · split
            · exact h2
            · split
              · exact h2
              · next isImprovement st3 heq3 =>
                exact ((checkDateImprovement_frame heq3).1).trans h2
        · exact h2
  unfold attemptBooking
  split
  · next a st2 inv n heq =>
    rw [heq] at hb
    exact hb
  · next r st2 inv n heq =>
    rw [heq] at hb
    exact hb

/-- C2 counterexample: the cycle fails after primary-date selection
(no consulate time slots) and returns null, yet `bestDateFound` has
already been overwritten from 20-09-2025 to 14-08-2025 by the improvement
check performed at selection time — partial progress is committed on a
failed cycle, contradicting the claim. -/
theorem attemptBooking_commits_best_on_failed_cycle :
    (attemptBooking c2Env baseCfg c2St).1 = none ∧
    ((attemptBooking c2Env baseCfg c2St).2.1).bestDateFound = some "14-08-2025" ∧
    c2St.bestDateFound = some "20-09-2025" :=
  ⟨rfl, rfl, rfl⟩

/-- C4: whenever the cycle reaches the improvement check with the
selected earliest primary date and that date is not an improvement
(`_checkDateImprovement` yields `false`), `attemptBooking` returns a
booking record with `isImprovement = false` and a null CASV date and
time, the CASV appointment step is never invoked (third trace component
`false`), the improvement evaluation ran exactly once (fourth trace
component `1`), and both `bestDateFound` and `baselineDate` are
unchanged. -/
theorem attemptBooking_non_improvement_short_circuit (env : CycleEnv) (cfg : MonitorConfig)
    (st : BookerState) (earliest : CalDay) (st2 : BookerState)
    (hsel : primaryPhase env cfg = Except.ok (some earliest))
    (hcheck : checkDateImprovement { st with selectedConsulateDate := some earliest.date }
      earliest.fullDate = Except.ok (false, st2)) :
    attemptBooking env cfg st =
      (some
        { consulateDate := earliest.fullDate
          consulateTime := none
          consulateLocation := cfg.consulate
          casvDate := none
          casvTime := none
          casvLocation := casvLocationName cfg.consulate
          isImprovement := false
          previousBest := st.bestDateFound
          baseline := if jsTruthyS st.baselineDate then st.baselineDate else none
          existingAppointments := none }, st2, false, 1) ∧
    st2.bestDateFound = st.bestDateFound ∧ st2.baselineDate = st.baselineDate := by
  have hframe : st2 = { st with selectedConsulateDate := some earliest.date } :=
    checkDateImprovement_false_frame hcheck
  subst hframe
  refine ⟨?_, rfl, rfl⟩
  unfold attemptBooking attemptBookingBody
  simp only [hsel, hcheck]
  rfl

theorem attemptBooking_non_improvement_short_circuit_witness :
    attemptBooking c4Env baseCfg c4St =
      (some
        { consulateDate := "30-08-2025"
          consulateTime := none
          consulateLocation := "Brasília"
          casvDate := none
          casvTime := none
          casvLocation := "Brasília ASC"
          isImprovement := false
          previousBest := some "29-08-2025"
          baseline := some "29-08-2025"
          existingAppointments := none },
       { c4St with selectedConsulateDate := some 30 }, false, 1) ∧
    ({ c4St with selectedConsulateDate := some 30 } : BookerState).bestDateFound =
      c4St.bestDateFound ∧
    ({ c4St with selectedConsulateDate := some 30 } : BookerState).baselineDate =
      c4St.baselineDate := by
  exact attemptBooking_non_improvement_short_circuit c4Env baseCfg c4St
    ⟨30, 8, 2025, "30-08-2025"⟩ { c4St with selectedConsulateDate := some 30 } rfl rfl

/-- C1 (code bug): starting from a fresh tracker (no baseline, no
best-found date, reference therefore the configured maximum 31-12-2025),
a fully successful cycle that books the genuinely improving date
14-08-2025 (key 20250814 < 20251231) invokes `_checkDateImprovement`
twice (fourth trace component `2`) and returns the completed paired
booking with `isImprovement = false`: the first invocation already
committed `bestDateFound := 14-08-2025`, so the second compares the date
against itself.  The spec requires exactly one evaluation and
`isImprovement = true` here; the genuine improvement is silently
dropped. -/
theorem attemptBooking_double_evaluation_drops_improvement :
    ((attemptBooking c1Env baseCfg emptySt).1.map fun r => r.isImprovement) = some false ∧
    ((attemptBooking c1Env baseCfg emptySt).1.map fun r => r.casvDate) = some (some "14-08-2025") ∧
    (attemptBooking c1Env baseCfg emptySt).2.2.2 = 2 ∧
    ((attemptBooking c1Env baseCfg emptySt).2.1).bestDateFound = some "14-08-2025" ∧
    dateToComparable "14-08-2025" = Except.ok (some 20250814) ∧
    dateToComparable emptySt.maxDate = Except.ok (some 20251231) ∧
    20250814 < 20251231 :=
  ⟨rfl, rfl, rfl, rfl, rfl, rfl, by decide⟩
